import Mathlib

/-!
Shallow embedding of the core of BAXTOR95/watermarkapp (src/watermark_app.py),
the coordinate-mapping and watermark-compositing engine of a Tkinter
watermarking application.

Modelling conventions:
- Python floats are modelled as exact fractions (structure Q below: an Int
  numerator over a Nat denominator, kept unnormalized).  The only floats in
  the program are the scale factors (ratios of pixel dimensions) and the
  intermediate products in the thumbnail computation; for the pixel sizes
  involved the exact rational value and the IEEE double agree.
- PIL bitmaps are modelled as an Img structure: explicit integer dimensions
  plus a symbolic pixel-data term (PixData).  PIL operations whose pixel
  output is external to this repository (resize, text rasterization, alpha
  paste) are modelled as free constructors of PixData over concretely
  computed dimensions and positions; Image.copy has value semantics, so a
  copy is the identical (pixel-for-pixel) value.
- Tkinter message boxes and the file write performed by Image.save are
  modelled as an explicit list of UIEvent values returned by each operation;
  the operations of the source contain no other externally visible effects.
- Dialog results (file paths, decoded images) and font-system facts
  (matplotlib findSystemFonts, ImageFont.truetype success, font.getbbox
  metrics) are inputs supplied by the environment; they are passed as
  explicit parameters (the FontEnv structure for the font system).
- The canvas is the fixed 600 x 400 widget configured in setup_ui; its
  dimensions are part of the state and never change.
-/

/-- Exact fraction used to model a Python float: numerator over positive
denominator, not normalized. -/
structure Q where
  n : Int
  d : Nat
deriving DecidableEq, Repr

/-- Truncating division of an Int by a Nat (rounds toward zero), the
semantics of the Python int() conversion applied to a quotient. -/
def int_trunc_div (a : Int) (b : Nat) : Int :=
  if 0 ≤ a then ((a.toNat / b : Nat) : Int) else -((((-a).toNat) / b : Nat) : Int)

/-- Python int() applied to the exact value of a fraction. -/
def pyInt (q : Q) : Int := int_trunc_div q.n q.d

/-- Floor division of an Int by a Nat. -/
def int_floor_div (a : Int) (b : Nat) : Int :=
  if 0 ≤ a then ((a.toNat / b : Nat) : Int) else -((((-a).toNat + b - 1) / b : Nat) : Int)

/-- Ceiling division of an Int by a Nat. -/
def int_ceil_div (a : Int) (b : Nat) : Int := -(int_floor_div (-a) b)

/-- Floor of a fraction, as math.floor on the exact value. -/
def qFloorI (q : Q) : Int := int_floor_div q.n q.d

/-- Ceiling of a fraction, as math.ceil on the exact value. -/
def qCeilI (q : Q) : Int := int_ceil_div q.n q.d

/-- Value comparison of two fractions with positive denominators, by
cross-multiplication. -/
def qLe (a b : Q) : Bool := a.n * (b.d : Int) ≤ b.n * (a.d : Int)

/-- Exact difference of two fractions. -/
def qSub (a b : Q) : Q := ⟨a.n * (b.d : Int) - b.n * (a.d : Int), a.d * b.d⟩

/-- Absolute value of a fraction. -/
def qAbs (a : Q) : Q := ⟨if a.n < 0 then -a.n else a.n, a.d⟩

/-- Font handle produced by the ImageFont calls in apply_text_watermark:
either a truetype font loaded from a path at a size, or the PIL built-in
default font (ImageFont.load_default). -/
inductive PFont where
  | truetype (path : String) (size : Nat)
  | defaultFont
deriving DecidableEq, Repr

/-- Symbolic pixel data of a PIL bitmap.  The constructors record the PIL
calls made by the source (Image.resize, ImageDraw.Draw.text, Image.paste
with the logo as its own alpha mask); their pixel-level output is external
library behavior, so two data terms are pixel-identical exactly when they
are equal. -/
inductive PixData where
  | src (id : Nat)
  | resized (base : PixData) (w h : Nat)
  | textDrawn (base : PixData) (pos : Int × Int) (text : String) (color : String) (font : PFont)
  | pasted (base : PixData) (pos : Int × Int) (logoW logoH : Nat) (logoData : PixData)
deriving DecidableEq, Repr

/-- A PIL bitmap: dimensions plus pixel data.  Image.copy is the identity
on this value (a copy is pixel-for-pixel identical). -/
structure Img where
  width : Nat
  height : Nat
  data : PixData
deriving DecidableEq, Repr

/-- Externally visible effects of the operations: Tkinter message boxes and
the file write performed by Image.save. -/
inductive UIEvent where
  | infoBox (title msg : String)
  | errorBox (title msg : String)
  | warnBox (title msg : String)
  | fileWrite (path : String) (img : Img)
deriving DecidableEq, Repr

/-- Inputs supplied by the font system: the enumerated system font paths
(matplotlib findSystemFonts), whether ImageFont.truetype succeeds on a path
at a size, and the getbbox metrics (x0, y0, x1, y1) of a text under a
font. -/
structure FontEnv where
  systemFonts : List String
  loadable : String → Nat → Bool
  getbbox : PFont → String → Int × Int × Int × Int

/-- Mutable attributes of the WatermarkApp instance set in init, plus the
modelled UI bits: the fixed canvas dimensions from setup_ui, the canvas
click marker drawn by on_canvas_click, and the button state set by
enable_buttons. -/
structure AppState where
  original_image : Option Img
  preview_image : Option Img
  watermarked_image : Option Img
  scale_x : Q
  scale_y : Q
  last_click_x : Int
  last_click_y : Int
  default_margin_x : Int
  default_margin_y : Int
  text_color : String
  canvas_width : Nat
  canvas_height : Nat
  click_marker : Option (Int × Int)
  buttons_enabled : Bool
deriving DecidableEq, Repr

/-- The state established by init (source lines 40-49), with the canvas
configured 600 x 400 by setup_ui. -/
def init_state : AppState :=
  { original_image := none
    preview_image := none
    watermarked_image := none
    scale_x := ⟨1, 1⟩
    scale_y := ⟨1, 1⟩
    last_click_x := 0
    last_click_y := 0
    default_margin_x := 30
    default_margin_y := 30
    text_color := "#000000"
    canvas_width := 600
    canvas_height := 400
    click_marker := none
    buttons_enabled := false }

/-- Python str.strip() truthiness test used at line 245: true when the text
contains at least one character that str.strip() would not remove. -/
def isPySpace (c : Char) : Bool :=
  c = ' ' || c = '\t' || c = '\n' || c = '\r' || c = '\x0b' || c = '\x0c'

/-- Guard of the watermark-drawing block: text.strip() is truthy. -/
def hasContent (text : String) : Bool :=
  text.toList.any (fun c => !(isPySpace c))

/-- Lowercased character sequence of a string (Python str.lower). -/
def lowerChars (s : String) : List Char := s.toList.map Char.toLower

/-- Whether the first character list is a leading segment of the second. -/
def charsPref : List Char → List Char → Bool
  | [], _ => true
  | _ :: _, [] => false
  | a :: as, b :: bs => a == b && charsPref as bs

/-- Whether the needle occurs contiguously inside the haystack: the Python
expression needle in haystack on strings. -/
def charsContains (needle : List Char) : List Char → Bool
  | [] => charsPref needle []
  | c :: rest => charsPref needle (c :: rest) || charsContains needle rest

/-- os.path.basename for the slash-separated paths returned by the font
enumeration. -/
def basename (p : String) : String :=
  String.mk ((p.toList.reverse.takeWhile (fun c => c ≠ '/')).reverse)

/-- get_font_path (source lines 458-472): first enumerated system font
whose basename contains the requested family name case-insensitively, else
None. -/
def get_font_path (fonts_list : List String) (font_name : String) : Option String :=
  fonts_list.find? (fun font_path =>
    charsContains (lowerChars font_name) (lowerChars (basename font_path)))

/-- The font obtained by the try/except around ImageFont.truetype at lines
249-253: the truetype font when a path was found and loads at the requested
size, otherwise ImageFont.load_default (truetype raises on a None path). -/
def resolve_font (env : FontEnv) (font_path : Option String) (font_size : Nat) : PFont :=
  match font_path with
  | some p => if env.loadable p font_size then PFont.truetype p font_size else PFont.defaultFont
  | none => PFont.defaultFont

/-- PIL round_aspect (inside Image.thumbnail): of floor and ceiling of the
number, the one with the smaller key (the floor on ties, matching Python
min), but at least 1. -/
def round_aspect (number : Q) (key : Int → Q) : Int :=
  let fl := qFloorI number
  let ce := qCeilI number
  max (if qLe (key fl) (key ce) then fl else ce) 1

/-- Dimensions produced by PIL Image.thumbnail((x0, y0)) on a w x h image:
unchanged when the image already fits, otherwise the largest
aspect-preserving size inside the box, with PIL rounding.  (Python would
raise a division error on a zero dimension; the definition is total and is
only used at positive dimensions.) -/
def thumbnail_size (w h x0 y0 : Nat) : Nat × Nat :=
  if x0 ≥ w ∧ y0 ≥ h then (w, h)
  else
    let aspect : Q := ⟨(w : Int), h⟩
    if qLe aspect ⟨(x0 : Int), y0⟩ then
      let x := round_aspect ⟨(w : Int) * (y0 : Int), h⟩
        (fun m => qAbs (qSub aspect ⟨m, y0⟩))
      (x.toNat, y0)
    else
      let y := round_aspect ⟨(x0 : Int) * (h : Int), w⟩
        (fun m => if m = 0 then ⟨0, 1⟩ else qAbs (qSub aspect ⟨(x0 : Int), m.toNat⟩))
      (x0, y.toNat)

/-- get_resized_image_for_preview (source lines 474-497): thumbnail a copy
of the image to the canvas size, store the scale factors (original over
preview dimension, per axis) on the state, and return the preview bitmap.
The canvas dimensions live in the state (the 600 x 400 widget). -/
def get_resized_image_for_preview (s : AppState) (img : Img) : AppState × Img :=
  let img_copy := img
  let sz := thumbnail_size img_copy.width img_copy.height s.canvas_width s.canvas_height
  let img_copy :=
    if sz = (img_copy.width, img_copy.height) then img_copy
    else { width := sz.1, height := sz.2, data := PixData.resized img_copy.data sz.1 sz.2 }
  ({ s with scale_x := ⟨(img.width : Int), img_copy.width⟩,
            scale_y := ⟨(img.height : Int), img_copy.height⟩ }, img_copy)

/-- update_preview (source lines 173-181): when a watermarked image exists,
recompute the preview (and hence the stored scale factors) from it. -/
def update_preview (s : AppState) : AppState :=
  match s.watermarked_image with
  | none => s
  | some wm =>
    let r := get_resized_image_for_preview s wm
    { r.1 with preview_image := some r.2 }

/-- on_canvas_click (source lines 121-144): record the click coordinates
and draw the red marker on the canvas. -/
def on_canvas_click (s : AppState) (event_x event_y : Int) : AppState :=
  { s with last_click_x := event_x, last_click_y := event_y,
           click_marker := some (event_x, event_y) }

/-- The preview-to-original conversion duplicated at source lines 262-268
and 316-323: subtract the fixed 125-pixel x padding, leave y unadjusted,
multiply each axis by the stored scale factor, and truncate with int(). -/
def to_original_space (click_x click_y : Int) (scale_x scale_y : Q) : Int × Int :=
  let adjusted_click_x := click_x - 125
  let adjusted_click_y := click_y
  (pyInt ⟨adjusted_click_x * scale_x.n, scale_x.d⟩,
   pyInt ⟨adjusted_click_y * scale_y.n, scale_y.d⟩)

/-- The preview bitmap is drawn on the canvas centered at (300, 200)
(create_image calls at lines 181 and 199-201), so the center of the
displayed preview is canvas point (300, 200). -/
def preview_center : Int × Int := (300, 200)

/-- apply_text_watermark (source lines 227-293).  Inputs from the text
editor widgets (entry text, font family, spinbox size parsed by int() with
36 on failure) are parameters; the font system is the env parameter. -/
def apply_text_watermark (env : FontEnv) (s : AppState)
    (text : String) (font_family : String) (font_size_input : Option Nat) :
    AppState × List UIEvent :=
  match s.original_image with
  | none => (s, [])
  | some orig =>
    let font_path := get_font_path env.systemFonts font_family
    let font_size := font_size_input.getD 36
    if hasContent text then
      let watermark_image := orig
      let font := resolve_font env font_path font_size
      let text_bbox := env.getbbox font text
      let text_width := text_bbox.2.2.1 - text_bbox.1
      let text_height := text_bbox.2.2.2 - text_bbox.2.1
      let position : Int × Int :=
        if 0 < s.last_click_x ∧ 0 < s.last_click_y then
          let anchor := to_original_space s.last_click_x s.last_click_y s.scale_x s.scale_y
          (max (anchor.1 - text_width) 0, max (anchor.2 - text_height) 0)
        else
          ((watermark_image.width : Int) - text_width - s.default_margin_x,
           (watermark_image.height : Int) - text_height - s.default_margin_y)
      let drawn : Img := { watermark_image with
        data := PixData.textDrawn watermark_image.data position text s.text_color font }
      let s1 : AppState := { s with click_marker := none }
      let s2 : AppState := { s1 with watermarked_image := some drawn }
      (update_preview s2, [])
    else
      (s, [])

/-- apply_logo_watermark (source lines 295-346).  The logo is always
resized first to one tenth of the target width with proportional height
(int(width * 0.1) and the proportional int() at lines 306-312, modelled
with the exact tenth; a zero-width logo would raise in Python), then
placed. -/
def apply_logo_watermark (s : AppState) (logo_image : Img) : AppState × List UIEvent :=
  match s.original_image with
  | none => (s, [])
  | some orig =>
    let watermark_image := orig
    let base_width := watermark_image.width / 10
    let hsize := logo_image.height * base_width / logo_image.width
    let logo_resized : Img :=
      { width := base_width, height := hsize,
        data := PixData.resized logo_image.data base_width hsize }
    let position : Int × Int :=
      if 0 < s.last_click_x ∧ 0 < s.last_click_y then
        let anchor := to_original_space s.last_click_x s.last_click_y s.scale_x s.scale_y
        (anchor.1 - ((logo_resized.width / 2 : Nat) : Int),
         anchor.2 - ((logo_resized.height / 2 : Nat) : Int))
      else
        ((watermark_image.width : Int) - logo_resized.width - s.default_margin_x,
         (watermark_image.height : Int) - logo_resized.height - s.default_margin_y)
    let pasted : Img := { watermark_image with
      data := PixData.pasted watermark_image.data position
        logo_resized.width logo_resized.height logo_resized.data }
    let s1 : AppState := { s with click_marker := none }
    let s2 : AppState := { s1 with watermarked_image := some pasted }
    (update_preview s2, [])

/-- save_image (source lines 348-372).  The dialog result and the success
of the underlying file write are parameters; the state is never changed. -/
def save_image (s : AppState) (save_path : Option String) (write_ok : Bool) :
    AppState × List UIEvent :=
  match s.watermarked_image with
  | some wm =>
    match save_path with
    | some path =>
      if write_ok then
        (s, [UIEvent.fileWrite path wm,
             UIEvent.infoBox "Save Successful" "The image has been saved successfully."])
      else
        (s, [UIEvent.errorBox "Save Error" "Failed to save the image."])
    | none => (s, [UIEvent.warnBox "Save Cancelled" "Image save operation was cancelled."])
  | none =>
    (s, [UIEvent.warnBox "No Image" "There is no image to save. Please add a watermark first."])

/-- upload_image (source lines 187-216).  The dialog result and the outcome
of Image.open are parameters. -/
def upload_image (s : AppState) (file_path : Option String) (opened : Option Img) :
    AppState × List UIEvent :=
  match file_path with
  | none =>
    (s, [UIEvent.infoBox "No Image Selected"
      "No image was selected. Please choose an image file to upload."])
  | some _ =>
    match opened with
    | none => (s, [UIEvent.errorBox "Image Upload Error" "Failed to load the image."])
    | some img =>
      let r := get_resized_image_for_preview s img
      ({ r.1 with original_image := some img, preview_image := some r.2,
                  buttons_enabled := true },
       [UIEvent.infoBox "Image Uploaded"
         "Click on the preview image to select the watermark position."])

/-! Preservation lemmas for update_preview and the two apply operations. -/

theorem update_preview_watermarked (s : AppState) :
    (update_preview s).watermarked_image = s.watermarked_image := by
  cases h : s.watermarked_image <;> simp [update_preview, h, get_resized_image_for_preview]

theorem update_preview_original (s : AppState) :
    (update_preview s).original_image = s.original_image := by
  cases h : s.watermarked_image <;> simp [update_preview, h, get_resized_image_for_preview]

theorem update_preview_click_marker (s : AppState) :
    (update_preview s).click_marker = s.click_marker := by
  cases h : s.watermarked_image <;> simp [update_preview, h, get_resized_image_for_preview]

theorem update_preview_last_click_x (s : AppState) :
    (update_preview s).last_click_x = s.last_click_x := by
  cases h : s.watermarked_image <;> simp [update_preview, h, get_resized_image_for_preview]

theorem update_preview_last_click_y (s : AppState) :
    (update_preview s).last_click_y = s.last_click_y := by
  cases h : s.watermarked_image <;> simp [update_preview, h, get_resized_image_for_preview]

theorem update_preview_canvas_width (s : AppState) :
    (update_preview s).canvas_width = s.canvas_width := by
  cases h : s.watermarked_image <;> simp [update_preview, h, get_resized_image_for_preview]

theorem update_preview_canvas_height (s : AppState) :
    (update_preview s).canvas_height = s.canvas_height := by
  cases h : s.watermarked_image <;> simp [update_preview, h, get_resized_image_for_preview]

theorem apply_text_preserves_original (env : FontEnv) (s : AppState)
    (text font_family : String) (font_size_input : Option Nat) :
    ((apply_text_watermark env s text font_family font_size_input).1).original_image
      = s.original_image := by
  cases h : s.original_image <;> cases h2 : hasContent text <;>
    simp [apply_text_watermark, h, h2, update_preview_original]

theorem apply_logo_preserves_original (s : AppState) (logo_image : Img) :
    ((apply_logo_watermark s logo_image).1).original_image = s.original_image := by
  cases h : s.original_image <;> simp [apply_logo_watermark, h, update_preview_original]

theorem apply_text_canvas_width (env : FontEnv) (s : AppState)
    (text font_family : String) (font_size_input : Option Nat) :
    ((apply_text_watermark env s text font_family font_size_input).1).canvas_width
      = s.canvas_width := by
  cases h : s.original_image <;> cases h2 : hasContent text <;>
    simp [apply_text_watermark, h, h2, update_preview_canvas_width]

theorem apply_text_canvas_height (env : FontEnv) (s : AppState)
    (text font_family : String) (font_size_input : Option Nat) :
    ((apply_text_watermark env s text font_family font_size_input).1).canvas_height
      = s.canvas_height := by
  cases h : s.original_image <;> cases h2 : hasContent text <;>
    simp [apply_text_watermark, h, h2, update_preview_canvas_height]

theorem apply_logo_canvas_width (s : AppState) (logo_image : Img) :
    ((apply_logo_watermark s logo_image).1).canvas_width = s.canvas_width := by
  cases h : s.original_image <;> simp [apply_logo_watermark, h, update_preview_canvas_width]

theorem apply_logo_canvas_height (s : AppState) (logo_image : Img) :
    ((apply_logo_watermark s logo_image).1).canvas_height = s.canvas_height := by
  cases h : s.original_image <;> simp [apply_logo_watermark, h, update_preview_canvas_height]

theorem preview_snd_congr (s t : AppState) (img : Img)
    (hw : s.canvas_width = t.canvas_width) (hh : s.canvas_height = t.canvas_height) :
    (get_resized_image_for_preview s img).2 = (get_resized_image_for_preview t img).2 := by
  simp [get_resized_image_for_preview, hw, hh]

/-! Concrete fixtures used by witnesses and counterexamples. -/

/-- A font system with one matching truetype font and simple metrics: the
bounding box of a text is 10 pixels per character wide and 20 tall. -/
def env_fix : FontEnv :=
  { systemFonts := ["/usr/share/fonts/arial.ttf"]
    loadable := fun _ _ => true
    getbbox := fun _ t => (0, 0, 10 * (t.length : Int), 20) }

/-- A font system with wide glyphs: 100 pixels per character, 50 tall. -/
def env_wide : FontEnv :=
  { systemFonts := ["/usr/share/fonts/arial.ttf"]
    loadable := fun _ _ => true
    getbbox := fun _ t => (0, 0, 100 * (t.length : Int), 50) }

/-- A 1000 x 800 source photo. -/
def img_photo : Img := ⟨1000, 800, PixData.src 0⟩

/-- A 100 x 100 source image. -/
def img_small : Img := ⟨100, 100, PixData.src 1⟩

/-- A 200 x 160 logo bitmap. -/
def img_logo : Img := ⟨200, 160, PixData.src 2⟩

/-- Session after loading the 1000 x 800 photo: the preview is 500 x 400,
so both stored scale factors are 2. -/
def state_loaded : AppState :=
  (upload_image init_state (some "photo.png") (some img_photo)).1

/-- The loaded session after a canvas click at (200, 100). -/
def state_clicked : AppState := on_canvas_click state_loaded 200 100

/-- Session after loading the 100 x 100 image (it fits the canvas, so the
preview is unscaled). -/
def state_small : AppState :=
  (upload_image init_state (some "small.png") (some img_small)).1

/-! Claim C1 -/

/-- C1 counterexample: in the loaded session with a click recorded at
(200, 100), apply_text_watermark succeeds (a result is produced), yet the
recorded ClickPoint still holds (200, 100) instead of the absent sentinel
(0, 0), and a second apply with no intervening click draws at the anchored
position (130, 180) derived from that click, not at the default
bottom-right position (950, 750).  This refutes the claim that a
successful application resets the ClickPoint to absent. -/
theorem C1_counterexample :
    (let s1 := (apply_text_watermark env_fix state_clicked "HI" "Arial" (some 36)).1
     s1.watermarked_image ≠ none ∧
     s1.last_click_x = 200 ∧ s1.last_click_y = 100 ∧
     ((apply_text_watermark env_fix s1 "HI" "Arial" (some 36)).1).watermarked_image =
       some ⟨1000, 800, PixData.textDrawn (PixData.src 0) (130, 180) "HI" "#000000"
         (PFont.truetype "/usr/share/fonts/arial.ttf" 36)⟩ ∧
     ((130 : Int), (180 : Int)) ≠ ((1000 : Int) - 20 - 30, (800 : Int) - 20 - 30)) := by
  decide

/-- C1 amended: a successful watermark application (text with non-empty
content, or logo, on a loaded image) deletes the visual click marker from
the canvas but leaves the recorded ClickPoint (last_click_x, last_click_y)
unchanged, so a subsequent apply with no intervening click reuses the
previous click rather than the default placement. -/
theorem C1_amended_marker_cleared_click_kept (env : FontEnv) (s : AppState) (orig : Img)
    (text font_family : String) (font_size_input : Option Nat) (logo_image : Img)
    (ht : hasContent text = true) :
    (let st : AppState := { s with original_image := some orig }
     let sT := (apply_text_watermark env st text font_family font_size_input).1
     let sL := (apply_logo_watermark st logo_image).1
     sT.click_marker = none ∧
     sT.last_click_x = s.last_click_x ∧ sT.last_click_y = s.last_click_y ∧
     sL.click_marker = none ∧
     sL.last_click_x = s.last_click_x ∧ sL.last_click_y = s.last_click_y) := by
  simp [apply_text_watermark, apply_logo_watermark, ht,
    update_preview_click_marker, update_preview_last_click_x, update_preview_last_click_y]

/-- C1 witness: the amended statement at the concrete clicked session. -/
theorem C1_witness :
    hasContent "HI" = true ∧
    (let st : AppState := { state_clicked with original_image := some img_photo }
     let sT := (apply_text_watermark env_fix st "HI" "Arial" (some 36)).1
     let sL := (apply_logo_watermark st img_logo).1
     sT.click_marker = none ∧
     sT.last_click_x = state_clicked.last_click_x ∧
     sT.last_click_y = state_clicked.last_click_y ∧
     sL.click_marker = none ∧
     sL.last_click_x = state_clicked.last_click_x ∧
     sL.last_click_y = state_clicked.last_click_y) :=
  ⟨by decide,
   C1_amended_marker_cleared_click_kept env_fix state_clicked img_photo
     "HI" "Arial" (some 36) img_logo (by decide)⟩

/-! Claim C2 -/

/-- C2: on a loaded image, when both recorded click coordinates are
strictly positive (the condition under which the code uses the click) and
the text survives strip(), the text watermark is drawn at the top-left
position (anchor.x - text_width, anchor.y - text_height), each axis clamped
to a minimum of 0, where the anchor is the click converted by
to_original_space with the stored scale factors and the text dimensions
come from the resolved font getbbox metrics. -/
theorem C2_text_click_placement (env : FontEnv) (s : AppState) (orig : Img)
    (text font_family : String) (font_size_input : Option Nat)
    (hx : 0 < s.last_click_x) (hy : 0 < s.last_click_y)
    (ht : hasContent text = true) :
    ((apply_text_watermark env { s with original_image := some orig }
        text font_family font_size_input).1).watermarked_image =
      some { width := orig.width, height := orig.height,
             data :=
               PixData.textDrawn orig.data
                 (let font := resolve_font env (get_font_path env.systemFonts font_family)
                    (font_size_input.getD 36)
                  let bb := env.getbbox font text
                  let text_width := bb.2.2.1 - bb.1
                  let text_height := bb.2.2.2 - bb.2.1
                  let anchor := to_original_space s.last_click_x s.last_click_y s.scale_x s.scale_y
                  (max (anchor.1 - text_width) 0, max (anchor.2 - text_height) 0))
                 text s.text_color
                 (resolve_font env (get_font_path env.systemFonts font_family)
                   (font_size_input.getD 36)) } := by
  simp [apply_text_watermark, ht, hx, hy, update_preview_watermarked]

/-- C2 witness: in the loaded 1000 x 800 session with scales 2 and a click
at (200, 100), the anchor is ((200 - 125) * 2, 100 * 2) = (150, 200) and
the "HI" box under env_fix is 20 x 20, so the watermark is drawn at
(130, 180). -/
theorem C2_witness :
    (0 : Int) < state_clicked.last_click_x ∧ (0 : Int) < state_clicked.last_click_y ∧
    hasContent "HI" = true ∧
    ((apply_text_watermark env_fix { state_clicked with original_image := some img_photo }
        "HI" "Arial" (some 36)).1).watermarked_image =
      some ⟨1000, 800, PixData.textDrawn (PixData.src 0) (130, 180) "HI" "#000000"
        (PFont.truetype "/usr/share/fonts/arial.ttf" 36)⟩ :=
  ⟨by decide, by decide, by decide,
   (C2_text_click_placement env_fix state_clicked img_photo "HI" "Arial" (some 36)
     (by decide) (by decide) (by decide)).trans (by decide)⟩

/-! Claim C3 -/

/-- C3: on the 1000 x 800 photo the preview is 500 x 400 and both stored
scale factors are 2; the preview is drawn centered at canvas point
(300, 200), so a click at the exact center of the preview is (300, 200);
to_original_space maps it to (350, 400), while the center of the original
image is (500, 400) - an error of 150 pixels on the x axis, far beyond
rounding error.  The fixed 125-pixel offset is only correct for a
350-pixel-wide preview, so the conversion misses the center for this
image. -/
theorem C3_center_click_eval :
    state_loaded.scale_x = ⟨1000, 500⟩ ∧ state_loaded.scale_y = ⟨800, 400⟩ ∧
    to_original_space preview_center.1 preview_center.2
      state_loaded.scale_x state_loaded.scale_y = (350, 400) ∧
    ((img_photo.width : Int) / 2, (img_photo.height : Int) / 2) = (500, 400) ∧
    (500 : Int) - 350 = 150 := by
  decide

/-! Claim C4 -/

/-- C4 counterexample: on the 100 x 100 image with a click registered at
preview coordinate (0, 0), applying the text "HI" under wide glyph metrics
(box 200 x 50) draws at (-130, 20): the placement is neither (0, 0) nor
non-negative, because a (0, 0) click fails the strictly-positive click test
and falls through to the unclamped default bottom-right placement
(100 - 200 - 30, 100 - 50 - 30). -/
theorem C4_counterexample :
    (let r := (apply_text_watermark env_wide
        (on_canvas_click state_small 0 0) "HI" "Arial" (some 36)).1
     r.watermarked_image = some ⟨100, 100, PixData.textDrawn (PixData.src 1) (-130, 20)
       "HI" "#000000" (PFont.truetype "/usr/share/fonts/arial.ttf" 36)⟩ ∧
     ((-130 : Int), (20 : Int)) ≠ ((0 : Int), (0 : Int)) ∧ (-130 : Int) < 0) := by
  decide

/-- C4 amended: a click registered at preview coordinate (0, 0) is
indistinguishable from the absent-click sentinel, so apply_text_watermark
uses the default bottom-right-margin placement
(width - text_width - margin_x, height - text_height - margin_y), which is
not clamped and may be negative; the clamped anchor path is not taken. -/
theorem C4_amended_zero_click_default (env : FontEnv) (s : AppState) (orig : Img)
    (text font_family : String) (font_size_input : Option Nat)
    (ht : hasContent text = true) :
    ((apply_text_watermark env
        (on_canvas_click { s with original_image := some orig } 0 0)
        text font_family font_size_input).1).watermarked_image =
      some { width := orig.width, height := orig.height,
             data :=
               PixData.textDrawn orig.data
                 (let font := resolve_font env (get_font_path env.systemFonts font_family)
                    (font_size_input.getD 36)
                  let bb := env.getbbox font text
                  let text_width := bb.2.2.1 - bb.1
                  let text_height := bb.2.2.2 - bb.2.1
                  ((orig.width : Int) - text_width - s.default_margin_x,
                   (orig.height : Int) - text_height - s.default_margin_y))
                 text s.text_color
                 (resolve_font env (get_font_path env.systemFonts font_family)
                   (font_size_input.getD 36)) } := by
  simp [apply_text_watermark, on_canvas_click, ht, update_preview_watermarked]

/-- C4 witness: the amended statement at the concrete (0, 0)-clicked
session, where the default placement evaluates to (-130, 20). -/
theorem C4_witness :
    hasContent "HI" = true ∧
    ((apply_text_watermark env_wide
        (on_canvas_click { state_small with original_image := some img_small } 0 0)
        "HI" "Arial" (some 36)).1).watermarked_image =
      some ⟨100, 100, PixData.textDrawn (PixData.src 1) (-130, 20) "HI" "#000000"
        (PFont.truetype "/usr/share/fonts/arial.ttf" 36)⟩ :=
  ⟨by decide,
   (C4_amended_zero_click_default env_wide state_small img_small "HI" "Arial" (some 36)
     (by decide)).trans (by decide)⟩

/-! Claim C5 -/

/-- C5: on a loaded image, when both recorded click coordinates are
strictly positive (the condition under which the code uses the click) and
the logo bitmap is non-degenerate, the logo is first resized to one tenth
of the target width (floor) with proportionally scaled height, and then
pasted at (anchor.x - logo_width / 2, anchor.y - logo_height / 2) computed
from the post-resize dimensions with floor halving and no clamping, where
the anchor is the click converted by to_original_space with the stored
scale factors. -/
theorem C5_logo_click_placement (s : AppState) (orig : Img) (logo_image : Img)
    (hx : 0 < s.last_click_x) (hy : 0 < s.last_click_y)
    (hw : 0 < logo_image.width) :
    ((apply_logo_watermark { s with original_image := some orig }
        logo_image).1).watermarked_image =
      some { width := orig.width, height := orig.height,
             data :=
               PixData.pasted orig.data
                 (let base_width := orig.width / 10
                  let hsize := logo_image.height * base_width / logo_image.width
                  let anchor := to_original_space s.last_click_x s.last_click_y s.scale_x s.scale_y
                  (anchor.1 - ((base_width / 2 : Nat) : Int),
                   anchor.2 - ((hsize / 2 : Nat) : Int)))
                 (orig.width / 10)
                 (logo_image.height * (orig.width / 10) / logo_image.width)
                 (PixData.resized logo_image.data (orig.width / 10)
                   (logo_image.height * (orig.width / 10) / logo_image.width)) } := by
  simp [apply_logo_watermark, hx, hy, update_preview_watermarked]

/-- C5 witness: in the loaded 1000 x 800 session with a click at (130, 10),
the 200 x 160 logo is resized to 100 x 80 and the anchor is (10, 20), so
the paste position is (10 - 50, 20 - 40) = (-40, -20): both coordinates are
negative, exhibiting the absence of clamping. -/
theorem C5_witness :
    (0 : Int) < (on_canvas_click state_loaded 130 10).last_click_x ∧
    (0 : Int) < (on_canvas_click state_loaded 130 10).last_click_y ∧
    0 < img_logo.width ∧
    ((apply_logo_watermark { (on_canvas_click state_loaded 130 10) with
        original_image := some img_photo } img_logo).1).watermarked_image =
      some ⟨1000, 800, PixData.pasted (PixData.src 0) (-40, -20) 100 80
        (PixData.resized (PixData.src 2) 100 80)⟩ ∧
    (-40 : Int) < 0 ∧ (-20 : Int) < 0 :=
  ⟨by decide, by decide, by decide,
   (C5_logo_click_placement (on_canvas_click state_loaded 130 10) img_photo img_logo
     (by decide) (by decide) (by decide)).trans (by decide),
   by decide, by decide⟩

/-! Claim C6 -/

/-- C6: neither apply operation mutates the loaded source image: after
either call (with any arguments, in any branch) the session still holds the
same source bitmap, and re-deriving the preview of the source in the
post-call state yields exactly the preview derived before the call. -/
theorem C6_source_not_mutated (env : FontEnv) (s : AppState) (orig : Img)
    (text font_family : String) (font_size_input : Option Nat) (logo_image : Img) :
    (let st : AppState := { s with original_image := some orig }
     let sT := (apply_text_watermark env st text font_family font_size_input).1
     let sL := (apply_logo_watermark st logo_image).1
     sT.original_image = some orig ∧
     (get_resized_image_for_preview sT orig).2 = (get_resized_image_for_preview st orig).2 ∧
     sL.original_image = some orig ∧
     (get_resized_image_for_preview sL orig).2 = (get_resized_image_for_preview st orig).2) := by
  refine ⟨?_, ?_, ?_, ?_⟩
  · rw [apply_text_preserves_original]
  · exact preview_snd_congr _ _ _ (apply_text_canvas_width ..) (apply_text_canvas_height ..)
  · rw [apply_logo_preserves_original]
  · exact preview_snd_congr _ _ _ (apply_logo_canvas_width ..) (apply_logo_canvas_height ..)

/-! Claim C7 -/

/-- C7: loading an image into a session that has no composite result and
then saving, with any dialog outcome, fails with the no-result warning and
performs no file write (the event list is exactly the warning): the
unwatermarked source is never passed through as the saved result. -/
theorem C7_save_without_watermark (s : AppState) (path : String) (img : Img)
    (save_path : Option String) (write_ok : Bool) :
    (let s1 := (upload_image { s with watermarked_image := none } (some path) (some img)).1
     save_image s1 save_path write_ok =
       (s1, [UIEvent.warnBox "No Image"
         "There is no image to save. Please add a watermark first."])) := by
  simp [upload_image, get_resized_image_for_preview, save_image]

/-! Claim C8 -/

/-- C8 counterexample: in the initial session (no image loaded), both
watermark operations return the state unchanged together with an empty
event list: no dialog of any kind is shown, so no NoImageLoaded error is
surfaced to the caller - the operations fail silently. -/
theorem C8_counterexample :
    init_state.original_image = none ∧
    apply_text_watermark env_fix init_state "HI" "Arial" (some 36) = (init_state, []) ∧
    apply_logo_watermark init_state img_logo = (init_state, []) := by
  decide

/-- C8 amended: every watermark operation attempted while no source image
is loaded is a silent no-op: it leaves all session state unchanged and
surfaces nothing (no error dialog); in the UI this case is normally
unreachable because the watermark buttons stay disabled until an image is
loaded. -/
theorem C8_amended_silent_noop (env : FontEnv) (s : AppState)
    (text font_family : String) (font_size_input : Option Nat) (logo_image : Img) :
    apply_text_watermark env { s with original_image := none } text font_family font_size_input
      = ({ s with original_image := none }, []) ∧
    apply_logo_watermark { s with original_image := none } logo_image
      = ({ s with original_image := none }, []) := by
  simp [apply_text_watermark, apply_logo_watermark]

/-! Claim C9 -/

/-- C9 counterexample: in the loaded session (source present, no result
yet), applying an empty text leaves the session exactly as it was - in
particular the session result is still absent, not an unmodified copy of
the pre-call source image as the claim requires. -/
theorem C9_counterexample :
    apply_text_watermark env_fix state_loaded "" "Arial" (some 36) = (state_loaded, []) ∧
    state_loaded.original_image = some img_photo ∧
    ((apply_text_watermark env_fix state_loaded "" "Arial" (some 36)).1).watermarked_image
      ≠ some img_photo := by
  decide

/-- C9 amended: calling apply_text_watermark with empty or whitespace-only
content is a complete no-op: nothing is drawn, nothing is surfaced, and the
session state is entirely unchanged - no new result is produced (the
current result, possibly absent, is left as it was rather than being set to
an unmodified copy of the source). -/
theorem C9_amended_blank_text_noop (env : FontEnv) (s : AppState)
    (text font_family : String) (font_size_input : Option Nat)
    (hblank : hasContent text = false) :
    apply_text_watermark env s text font_family font_size_input = (s, []) := by
  cases h : s.original_image <;> simp [apply_text_watermark, h, hblank]

/-- C9 witness: the amended statement at a whitespace-only text in the
loaded session. -/
theorem C9_witness :
    hasContent "  \t " = false ∧
    apply_text_watermark env_fix state_loaded "  \t " "Arial" (some 36)
      = (state_loaded, []) :=
  ⟨by decide,
   C9_amended_blank_text_noop env_fix state_loaded "  \t " "Arial" (some 36) (by decide)⟩

/-! Claim C10 -/

/-- C10: a registered click whose x coordinate is 0 or whose y coordinate
is 0 fails the strictly-positive click test of both apply operations, so
each uses the default bottom-right-margin placement, and each produces a
result identical to the one produced from the absent-click sentinel state
(0, 0): such a click is indistinguishable from no click at the public
interface. -/
theorem C10_zero_axis_click_is_absent (env : FontEnv) (s : AppState) (orig : Img)
    (text font_family : String) (font_size_input : Option Nat) (logo_image : Img)
    (cx cy : Int) (h0 : cx = 0 ∨ cy = 0) (ht : hasContent text = true) :
    (let st : AppState := { s with original_image := some orig,
                                   last_click_x := cx, last_click_y := cy }
     let st0 : AppState := { s with original_image := some orig,
                                    last_click_x := 0, last_click_y := 0 }
     ((apply_text_watermark env st text font_family font_size_input).1).watermarked_image =
       some { width := orig.width, height := orig.height,
              data :=
                PixData.textDrawn orig.data
                  (let font := resolve_font env (get_font_path env.systemFonts font_family)
                     (font_size_input.getD 36)
                   let bb := env.getbbox font text
                   let text_width := bb.2.2.1 - bb.1
                   let text_height := bb.2.2.2 - bb.2.1
                   ((orig.width : Int) - text_width - s.default_margin_x,
                    (orig.height : Int) - text_height - s.default_margin_y))
                  text s.text_color
                  (resolve_font env (get_font_path env.systemFonts font_family)
                    (font_size_input.getD 36)) } ∧
     ((apply_logo_watermark st logo_image).1).watermarked_image =
       some { width := orig.width, height := orig.height,
              data :=
                PixData.pasted orig.data
                  (let base_width := orig.width / 10
                   let hsize := logo_image.height * base_width / logo_image.width
                   ((orig.width : Int) - base_width - s.default_margin_x,
                    (orig.height : Int) - hsize - s.default_margin_y))
                  (orig.width / 10)
                  (logo_image.height * (orig.width / 10) / logo_image.width)
                  (PixData.resized logo_image.data (orig.width / 10)
                    (logo_image.height * (orig.width / 10) / logo_image.width)) } ∧
     ((apply_text_watermark env st text font_family font_size_input).1).watermarked_image =
       ((apply_text_watermark env st0 text font_family font_size_input).1).watermarked_image ∧
     ((apply_logo_watermark st logo_image).1).watermarked_image =
       ((apply_logo_watermark st0 logo_image).1).watermarked_image) := by
  have hc : ¬(0 < cx ∧ 0 < cy) := by rcases h0 with h | h <;> simp [h]
  simp [apply_text_watermark, apply_logo_watermark, ht, hc, update_preview_watermarked]

/-- C10 witness: a click on the left column of the canvas, at (0, 373), in
the loaded 1000 x 800 session: both operations place at the default
bottom-right positions and coincide with the sentinel-state results. -/
theorem C10_witness :
    ((0 : Int) = 0 ∨ (373 : Int) = 0) ∧ hasContent "HI" = true ∧
    (let st : AppState := { state_loaded with original_image := some img_photo,
                                              last_click_x := 0, last_click_y := 373 }
     let st0 : AppState := { state_loaded with original_image := some img_photo,
                                               last_click_x := 0, last_click_y := 0 }
     ((apply_text_watermark env_fix st "HI" "Arial" (some 36)).1).watermarked_image =
       some ⟨1000, 800, PixData.textDrawn (PixData.src 0) (950, 750) "HI" "#000000"
         (PFont.truetype "/usr/share/fonts/arial.ttf" 36)⟩ ∧
     ((apply_logo_watermark st img_logo).1).watermarked_image =
       some ⟨1000, 800, PixData.pasted (PixData.src 0) (870, 690) 100 80
         (PixData.resized (PixData.src 2) 100 80)⟩ ∧
     ((apply_text_watermark env_fix st "HI" "Arial" (some 36)).1).watermarked_image =
       ((apply_text_watermark env_fix st0 "HI" "Arial" (some 36)).1).watermarked_image ∧
     ((apply_logo_watermark st img_logo).1).watermarked_image =
       ((apply_logo_watermark st0 img_logo).1).watermarked_image) :=
  ⟨Or.inl rfl, by decide,
   by
    have h := C10_zero_axis_click_is_absent env_fix state_loaded img_photo
      "HI" "Arial" (some 36) img_logo 0 373 (Or.inl rfl) (by decide)
    exact ⟨h.1.trans (by decide), h.2.1.trans (by decide), h.2.2.1, h.2.2.2⟩⟩
